import Mathlib

/-!
# Sajilo-Chat relay server: a shallow embedding of `server/app/dm_server.py`

This file embeds the parts of the Sajilo-Chat repository that the verified
claims talk about:

* the per-connection handler `handle` of `server/app/dm_server.py`
  (frame dispatch, the FRAME-mode byte buffer with its overflow policy,
  and the length-prefixed file-relay subprotocol);
* the persistence client `ChatHistoryManager.save_message` of
  `server/app/chat_history_manager.py` together with the
  `/api/messages/save` endpoint of `server/app/unified_server.py`;
* the JWT-secret configuration lines of `dm_server.py` and
  `unified_server.py`.

Bytes are modelled as `Nat` (values `0..255`; the newline byte is `10`),
socket streams as `List Nat`.  The sizes the network hands to each
`recv` call are made explicit as a `List Nat` argument, so that the relay
loop is an executable function of the sender's byte stream and the
chunking chosen by the network.
-/

namespace SajiloChat

/-- Constant `MAX_MESSAGE_SIZE` of `dm_server.py` (line 18, default `10240`). -/
def MAX_MESSAGE_SIZE : Nat := 10240

/-- Constant `BUFFER_SIZE` of `dm_server.py` (line 17, default `4096`). -/
def BUFFER_SIZE : Nat := 4096

/-! ## JSON values and Python `int(...)` coercion

`file_size` in a `file_transfer_start` frame is an arbitrary JSON value.
`dm_server.py` line 210 runs `expected = int(file_size)` and falls back to
`expected = 0` when that raises.  We model the JSON values that can appear
there; a JSON decimal number is carried exactly as `mantissa / 10 ^ exp`
(e.g. `3.5` is `jnum 35 1`), avoiding floating point while matching
Python's truncation toward zero in `int(3.5) = 3`. -/
inductive JVal : Type
  | jnull : JVal
  | jbool : Bool → JVal
  | jint : Int → JVal
  | jnum : Int → Nat → JVal
  | jstr : String → JVal
  deriving DecidableEq, Repr

/-- Truncation toward zero of `m / 10 ^ e`, as Python `int()` applied to a
decimal number. -/
def truncDiv10 (m : Int) (e : Nat) : Int :=
  if 0 ≤ m then (m.toNat / 10 ^ e : Nat) else -((-m).toNat / 10 ^ e : Nat)

/-- Whether a character is ASCII whitespace that Python's `int(str)`
strips from both ends. -/
def pyWhitespace (c : Char) : Bool :=
  c = ' ' ∨ c = '\t' ∨ c = '\n' ∨ c = '\r' ∨ c = '\x0b' ∨ c = '\x0c'

/-- Continuation of Python's integer-literal digit grammar: what may
follow a digit — more digits, with single underscores allowed only
between two digits (`1_0` is legal, `1__0` and a trailing `_` are not). -/
def digitsUGo : List Char → Bool
  | [] => true
  | '_' :: c :: rest => c.isDigit && digitsUGo rest
  | c :: rest => c.isDigit && digitsUGo rest

/-- Python's digit grammar for `int(str)` on ASCII input: at least one
decimal digit, single underscores permitted between digits. -/
def digitsU : List Char → Bool
  | [] => false
  | c :: rest => c.isDigit && digitsUGo rest

/-- Python `int(s)` on a string, modelled for ASCII input: whitespace is
stripped from both ends, an optional sign follows, then decimal digits
with single underscores allowed between digits (`int("1_0") = 10`,
`int(" 5\t") = 5`).  Returns `none` where Python raises `ValueError`.
Scope note: Python additionally accepts non-ASCII decimal digits and
Unicode whitespace; those inputs are outside this model (mapped to
`none`) and no theorem in this file ranges over them. -/
def pyStrToInt (s : String) : Option Int :=
  let cs := (s.toList.dropWhile pyWhitespace).reverse.dropWhile pyWhitespace
    |>.reverse
  let (sign, digits) :=
    match cs with
    | '-' :: rest => ((-1 : Int), rest)
    | '+' :: rest => ((1 : Int), rest)
    | rest => ((1 : Int), rest)
  if digitsU digits then
    some (sign * ((digits.filter (fun c => c ≠ '_')).foldl
      (fun acc c => 10 * acc + (c.toNat - 48)) 0 : Nat))
  else none

/-- Python `int(v)` on a JSON value; `none` models the raised exception
(`int(None)`, `int("abc")`, ...).  Scope note: `json.loads` reads a JSON
decimal into an IEEE-754 double before `int()` truncates it; the `jnum`
case here truncates the exact decimal instead, so it is faithful only
for decimals the double represents exactly (such as `3.5`, the one used
below).  Decimals whose nearest double is a different value (e.g. a
17-nines `0.9...9` reading as `1.0`) are outside the model and no
theorem in this file ranges over `jnum` — each use instantiates it at an
exactly-representable decimal. -/
def pyInt : JVal → Option Int
  | JVal.jnull => none
  | JVal.jbool b => some (if b then 1 else 0)
  | JVal.jint n => some n
  | JVal.jnum m e => some (truncDiv10 m e)
  | JVal.jstr s => pyStrToInt s

/-- Lines 209-212 of `dm_server.py`:
`try: expected = int(file_size)  except Exception: expected = 0`,
with a missing `file_size` (`message_data.get` returning `None`) also
raising inside the `try`. -/
def expectedOf : Option JVal → Int
  | none => 0
  | some v => (pyInt v).getD 0

/-! ## Control frames

The fields of the parsed JSON object (`message_data`) that `handle` reads.
Python's `dict.get` returning `None` is an `Option` field. -/
structure Frame : Type where
  type : Option String := none
  receiver : Option String := none
  fileName : Option String := none
  fileSize : Option JVal := none
  fileId : Option String := none
  toUser : Option String := none
  message : Option String := none
  status : Option String := none
  deriving DecidableEq, Repr

/-- Frames the server itself writes (each serialized as one JSON line). -/
inductive OutMsg : Type
  | fwdStart : Frame → OutMsg
  | fwdEnd : Frame → OutMsg
  | errorMsg : String → OutMsg
  | groupMsg : String → String → OutMsg
  | dmMsg : String → String → OutMsg
  | dmConfirm : String → String → String → OutMsg
  deriving DecidableEq, Repr

/-- Observable actions of the handler: a control frame written to a user's
socket, raw bytes written to a user's socket (the length prefix and the
file payload), or a fire-and-forget `save_message` HTTP post
(`sender`, `recipient`, `message`, `type`). -/
inductive Event : Type
  | sendFrame : String → OutMsg → Event
  | sendRaw : String → List Nat → Event
  | persist : String → String → String → String → Event
  deriving DecidableEq, Repr

/-- Per-connection file-transfer state of `handle`
(`file_metadata`, `receiver_socket`; lines 113-117). -/
structure HState : Type where
  fileMetadata : Option Frame := none
  receiverSocket : Option String := none
  deriving DecidableEq, Repr

/-! ## The FRAME-mode byte buffer (lines 129-162)

`buffer += chunk`; clear it (and send an `error`) when it exceeds
`2 * MAX_MESSAGE_SIZE`; otherwise repeatedly `buffer.split(b'\n', 1)`. -/

/-- Iterated `buffer.split(b'\n', 1)`: accumulate the current line in
reverse; on the newline byte `10`, emit it and continue. Returns the list
of complete lines in order and the residue that holds no newline. -/
def splitLinesAux : List Nat → List Nat → List (List Nat) × List Nat
  | acc, [] => ([], acc.reverse)
  | acc, c :: rest =>
    if c = 10 then
      let p := splitLinesAux [] rest
      (acc.reverse :: p.1, p.2)
    else
      splitLinesAux (c :: acc) rest

/-- All complete newline-terminated lines of the buffer, and the residue. -/
def splitLines (b : List Nat) : List (List Nat) × List Nat :=
  splitLinesAux [] b

/-- Reassemble lines and a residue into the buffer they came from. -/
def joinLines (ls : List (List Nat)) (rest : List Nat) : List Nat :=
  ls.foldr (fun l acc => l ++ 10 :: acc) rest

/-- Lines 129-147 of `dm_server.py`: append the received chunk to the
buffer; if the result exceeds `MAX_MESSAGE_SIZE * 2`, clear it and flag the
overflow `error` frame (no line is extracted); otherwise extract every
complete line for frame processing.  Result: (extracted lines, new buffer,
overflow-error flag). -/
def processChunk (buffer chunk : List Nat) : List (List Nat) × List Nat × Bool :=
  if MAX_MESSAGE_SIZE * 2 < (buffer ++ chunk).length then
    ([], [], true)
  else
    ((splitLines (buffer ++ chunk)).1, (splitLines (buffer ++ chunk)).2, false)

/-! ## The length-prefixed file relay (lines 207-345)

After forwarding the `file_transfer_start` metadata, `handle` sends a
4-byte big-endian length prefix to the receiver, consumes any payload
bytes already sitting in the FRAME-mode buffer, and then `recv`s until
exactly `expected` bytes have been forwarded.  Any bytes of a chunk beyond
the payload go back into the FRAME-mode buffer. -/

/-- Big-endian length prefix: `struct.pack('>I', n)`, the 4 big-endian bytes of `n < 2 ^ 32`. -/
def be32 (n : Nat) : List Nat :=
  [n / 2 ^ 24 % 256, n / 2 ^ 16 % 256, n / 2 ^ 8 % 256, n % 256]

/-- The `while bytes_relayed < expected` loop (lines 298-324).
`sizes` lists how many bytes the network makes available to each
successive `recv` call; `recv(to_read)` hands over
`min (available) (to_read)` bytes of the remaining stream.  Returns the
data parts forwarded to the receiver in order, a success flag (`false`
models the `Sender disconnected during file transfer` exception, raised
when `recv` yields no bytes or `sizes` is exhausted), the final FRAME-mode
buffer and the unread remainder of the stream. -/
def relayRecvLoop (expected bytesRelayed : Nat) (buffer stream : List Nat) :
    List Nat → List (List Nat) × Bool × List Nat × List Nat
  | [] =>
    if bytesRelayed < expected then ([], false, buffer, stream)
    else ([], true, buffer, stream)
  | a :: rest =>
    if bytesRelayed < expected then
      let need := expected - bytesRelayed
      let toRead := min BUFFER_SIZE need
      let chunk := stream.take (min a toRead)
      if chunk = [] then ([], false, buffer, stream)
      else
        -- `if len(chunk) > need` split of lines 306-311 (the tail goes
        -- back into the buffer; unreachable here since `recv(to_read)`
        -- returns at most `to_read ≤ need` bytes)
        let dataPart := chunk.take need
        let tail := chunk.drop need
        let r := relayRecvLoop expected (bytesRelayed + dataPart.length)
          (tail ++ buffer) (stream.drop (min a toRead)) rest
        (dataPart :: r.1, r.2)
    else ([], true, buffer, stream)

/-- Lines 277-328: consume payload bytes already in the FRAME-mode buffer
(lines 280-296), then run the `recv` loop.  Returns the forwarded data
parts in order (the head is the buffered part, possibly `[]` — the code
only calls `sendall` on it `if data_part:`), the success flag, the final
buffer and the remaining stream. -/
def streamFile (expected : Nat) (buffer stream : List Nat) (sizes : List Nat) :
    List (List Nat) × Bool × List Nat × List Nat :=
  let dataPart := buffer.take expected
  let leftover := buffer.drop dataPart.length
  let r := relayRecvLoop expected dataPart.length leftover stream sizes
  (dataPart :: r.1, r.2)

/-! ## Frame dispatch (lines 164-464)

`clients` is the registry (insertion-ordered usernames of live sessions),
`writeOk u` tells whether a `send` on `u`'s socket succeeds (used by
`send_to_user`; forwarding writes to the file-transfer receiver are taken
to succeed, as in every claim's scenario). -/

/-- Python `recipient not in clients` with `recipient = message_data.get('receiver')`:
`None` is never a key of the registry. -/
def optMem : Option String → List String → Bool
  | none, _ => false
  | some r, cs => r ∈ cs

/-- Python `f'{recipient}'` on an optional string (`None` prints as `"None"`). -/
def optStr : Option String → String
  | none => "None"
  | some r => r

/-- The `file_transfer_start` branch (lines 172-345).  Returns the new
handler state, the new FRAME-mode buffer, the events in program order and
the unread remainder of the sender's stream. -/
def processFileStart (clients : List String) (username : String) (st : HState)
    (f : Frame) (buffer stream : List Nat) (sizes : List Nat) :
    HState × List Nat × List Event × List Nat :=
  if optMem f.receiver clients = false then
    -- lines 181-188: recipient offline
    (st, buffer,
      [Event.sendFrame username
        (OutMsg.errorMsg (optStr f.receiver ++ " is offline. Cannot send file."))],
      stream)
  else
    let r := (f.receiver).getD ""
    -- line 190: receiver_socket = clients[recipient]
    -- line 194: forward metadata; line 205: file_metadata = message_data
    let st1 : HState := { fileMetadata := some f, receiverSocket := some r }
    let fwd := Event.sendFrame r (OutMsg.fwdStart f)
    let expected := expectedOf f.fileSize
    if expected ≤ 0 then
      -- lines 214-217
      (st1, buffer, [fwd, Event.sendFrame username (OutMsg.errorMsg "Invalid file size")],
        stream)
    else if (2 : Int) ^ 32 ≤ expected then
      -- line 223: struct.pack('>I', expected) raises struct.error,
      -- caught by lines 224-227
      (st1, buffer, [fwd, Event.sendFrame username (OutMsg.errorMsg "Receiver unreachable")],
        stream)
    else
      let n := expected.toNat
      let prefixEv := Event.sendRaw r (be32 n)
      let s := streamFile n buffer stream sizes
      let payloadEvs := (s.1.filter (fun d => d ≠ [])).map (Event.sendRaw r)
      if s.2.1 then
        (st1, s.2.2.1, fwd :: prefixEv :: payloadEvs, s.2.2.2)
      else
        -- lines 329-338: the streaming exception is reported to both ends
        (st1, s.2.2.1,
          fwd :: prefixEv :: payloadEvs ++
            [Event.sendFrame username
              (OutMsg.errorMsg "Sender disconnected during file transfer"),
             Event.sendFrame r
              (OutMsg.errorMsg "Sender disconnected during file transfer")],
          s.2.2.2)

/-- The `file_transfer_end` branch (lines 347-365): forward the end frame
to the receiver when the stored metadata's `file_id` equals the frame's,
then clear the transfer state; otherwise only log a warning. -/
def processFileEnd (st : HState) (f : Frame) : HState × List Event :=
  match st.fileMetadata, st.receiverSocket with
  | some meta, some r =>
    if meta.fileId = f.fileId then
      ({ fileMetadata := none, receiverSocket := none },
        [Event.sendFrame r (OutMsg.fwdEnd f)])
    else (st, [])
  | _, _ => (st, [])

/-- Function `broadcast` (lines 60-76) with `exclude_user=None`: one frame to every
registered client, the sender included. -/
def broadcastAll (clients : List String) (m : OutMsg) : List Event :=
  clients.map (fun u => Event.sendFrame u m)

/-- The `group` branch (lines 367-388): validate, persist, broadcast
(no `exclude_user` is passed at line 387). -/
def processGroup (clients : List String) (username : String) (f : Frame) :
    List Event :=
  let msg := (f.message).getD ""
  if msg = "" ∨ MAX_MESSAGE_SIZE < msg.length then
    [Event.sendFrame username (OutMsg.errorMsg "Invalid message")]
  else
    Event.persist username "group" msg "group" ::
      broadcastAll clients (OutMsg.groupMsg username msg)

/-- The `dm` branch (lines 390-427): validate, persist, then
`send_to_user` (lines 79-93); on success confirm to the sender, otherwise
send the not-found error. -/
def processDm (clients : List String) (writeOk : String → Bool)
    (username : String) (f : Frame) : List Event :=
  let msg := (f.message).getD ""
  let valid := msg ≠ "" ∧ msg.length ≤ MAX_MESSAGE_SIZE ∧
    f.toUser ≠ none ∧ f.toUser ≠ some ""
  if valid then
    let r := (f.toUser).getD ""
    if r ∈ clients ∧ writeOk r then
      [Event.persist username r msg "dm",
       Event.sendFrame r (OutMsg.dmMsg username msg),
       Event.sendFrame username (OutMsg.dmConfirm username r msg)]
    else
      [Event.persist username r msg "dm",
       Event.sendFrame username
        (OutMsg.errorMsg ("User " ++ r ++ " not found or offline"))]
  else
    [Event.sendFrame username (OutMsg.errorMsg "Invalid message or recipient")]

/-- Dispatch on `message_data.get('type')` (lines 169-430) for the frame
types the claims exercise; `request_users`, `request_history` and unknown
types leave the state, buffer and stream unchanged and are out of the
claims' scope. -/
def processFrame (clients : List String) (writeOk : String → Bool)
    (username : String) (st : HState) (f : Frame)
    (buffer stream : List Nat) (sizes : List Nat) :
    HState × List Nat × List Event × List Nat :=
  match f.type with
  | some "file_transfer_start" =>
    processFileStart clients username st f buffer stream sizes
  | some "file_transfer_end" =>
    let p := processFileEnd st f
    (p.1, buffer, p.2, stream)
  | some "group" => (st, buffer, processGroup clients username f, stream)
  | some "dm" => (st, buffer, processDm clients writeOk username f, stream)
  | _ => (st, buffer, [], stream)

/-! ## Persistence: `ChatHistoryManager.save_message` versus the
`/api/messages/save` endpoint of `unified_server.py` -/

/-- The keys of the JSON body that `ChatHistoryManager.save_message`
posts to `{db_api_url}/messages/save` (lines 59-69 of
`chat_history_manager.py`). -/
def saveMessageBodyKeys : List String :=
  ["sender", "recipient", "message", "type"]

/-- The fields `save_encrypted_message` requires (line 436 of
`unified_server.py`). -/
def saveRequiredFields : List String :=
  ["sender", "recipient", "ciphertext", "nonce", "mac", "type"]

/-- Lines 436-439 of `unified_server.py`: the first required field missing
from the posted body, if any. -/
def firstMissingSaveField (keys : List String) : Option String :=
  saveRequiredFields.find? (fun fld => fld ∉ keys)

/-- The HTTP status `/api/messages/save` answers for a body with the given
keys (ignoring server-side 500s): `400` on the first missing required
field (lines 436-439), else `201` (line 493). -/
def saveEndpointStatus (keys : List String) : Nat :=
  match firstMissingSaveField keys with
  | some _ => 400
  | none => 201

/-! ## JWT secret configuration -/

/-- An environment, and Python `os.getenv(key, default)` /
`os.getenv(key)`. -/
def getenvD (env : List (String × String)) (key dflt : String) : String :=
  ((env.filter (fun p => p.1 = key)).head?.map Prod.snd).getD dflt

/-- Python `os.getenv(key)` (returns `None` when absent). -/
def getenvOpt (env : List (String × String)) (key : String) : Option String :=
  (env.filter (fun p => p.1 = key)).head?.map Prod.snd

/-- Line 15 of `dm_server.py`:
`JWT_SECRET = os.getenv("JWT_SECRET_KEY", "jwt-dev-secret")`. -/
def dmServerJwtSecret (env : List (String × String)) : String :=
  getenvD env "JWT_SECRET_KEY" "jwt-dev-secret"

/-- Lines 12-14 of `unified_server.py` (the token issuer):
`JWT_SECRET = os.getenv("JWT_SECRET")`, and a `RuntimeError` is raised —
the process refuses to start — when it is `None`.  `none` models the
refusal to start. -/
def unifiedServerJwtSecret (env : List (String × String)) : Option String :=
  getenvOpt env "JWT_SECRET"

/-! ## Lemmas about the FRAME-mode buffer -/

theorem splitLinesAux_join (b : List Nat) :
    ∀ acc, joinLines (splitLinesAux acc b).1 (splitLinesAux acc b).2 =
      acc.reverse ++ b := by
  induction b with
  | nil =>
    intro acc
    simp [splitLinesAux, joinLines]
  | cons c rest ih =>
    intro acc
    by_cases hc : c = 10
    · subst hc
      have h0 : joinLines (splitLinesAux [] rest).1 (splitLinesAux [] rest).2 =
          rest := by simpa using ih []
      simp only [splitLinesAux, eq_self_iff_true, if_true, joinLines,
        List.foldr_cons]
      simp only [joinLines] at h0
      rw [h0]
    · have h1 := ih (c :: acc)
      simp only [splitLinesAux, if_neg hc]
      rw [h1]
      simp

theorem splitLinesAux_rest_no_newline (b : List Nat) :
    ∀ acc, 10 ∉ acc → 10 ∉ (splitLinesAux acc b).2 := by
  induction b with
  | nil =>
    intro acc hacc
    simpa [splitLinesAux] using hacc
  | cons c rest ih =>
    intro acc hacc
    by_cases hc : c = 10
    · subst hc
      simpa [splitLinesAux] using ih [] (by simp)
    · simp only [splitLinesAux, if_neg hc]
      exact ih (c :: acc) (by
        simp only [List.mem_cons, not_or]
        exact ⟨fun h => hc h.symm, hacc⟩)

theorem splitLines_join (b : List Nat) :
    joinLines (splitLines b).1 (splitLines b).2 = b := by
  simpa using splitLinesAux_join b []

theorem splitLines_rest_no_newline (b : List Nat) : 10 ∉ (splitLines b).2 :=
  splitLinesAux_rest_no_newline b [] (by simp)

/-- A buffer that holds a newline yields at least one complete line. -/
theorem splitLines_fst_ne_nil (b : List Nat) (h : 10 ∈ b) :
    (splitLines b).1 ≠ [] := by
  intro hnil
  have hj := splitLines_join b
  rw [hnil] at hj
  simp only [joinLines, List.foldr_nil] at hj
  exact splitLines_rest_no_newline b (by rw [hj]; exact h)

/-- C7, counterexample.  A 20000-byte newline-free buffer plus a 481-byte
chunk that ends with two complete lines (among them the two-byte line
`\x7b\x7d`, a valid JSON frame) exceeds `2 * MAX_MESSAGE_SIZE = 20480`:
`processChunk` clears everything and extracts no line, although the
combined buffer did contain complete newline-terminated lines — refuting
"the overflow policy never discards a buffer that does contain a complete
line". -/
theorem c7_overflow_discards_complete_line :
    processChunk (List.replicate 20000 65)
        (List.replicate 477 65 ++ 10 :: 123 :: 125 :: [10]) = ([], [], true) ∧
    (splitLines (List.replicate 20000 65 ++
        (List.replicate 477 65 ++ 10 :: 123 :: 125 :: [10]))).1 ≠ [] := by
  constructor
  · have hlen : MAX_MESSAGE_SIZE * 2 <
        (List.replicate 20000 65 ++
          (List.replicate 477 65 ++ 10 :: 123 :: 125 :: [10])).length := by
      simp only [List.length_append, List.length_replicate, List.length_cons,
        List.length_nil, MAX_MESSAGE_SIZE]
      norm_num
    unfold processChunk
    rw [if_pos hlen]
  · apply splitLines_fst_ne_nil
    exact List.mem_append_right _ (List.mem_append_right _ (List.mem_cons_self _ _))

/-- C7, amended.  The FRAME-mode buffer policy of lines 129-147: after a
`recv` chunk is appended, the buffer is cleared (and the overflow `error`
frame flagged) exactly when its size exceeds `2 * MAX_MESSAGE_SIZE` — the
check precedes line extraction, so complete lines present in an oversized
buffer are discarded with it; when the bound is not exceeded, every
complete newline-terminated line is extracted for control-frame parsing
and only a newline-free residue is kept. -/
theorem c7_overflow_policy (buffer chunk : List Nat) :
    (MAX_MESSAGE_SIZE * 2 < (buffer ++ chunk).length →
      processChunk buffer chunk = ([], [], true)) ∧
    ((buffer ++ chunk).length ≤ MAX_MESSAGE_SIZE * 2 →
      ∃ ls rest, processChunk buffer chunk = (ls, rest, false) ∧
        joinLines ls rest = buffer ++ chunk ∧ 10 ∉ rest) := by
  constructor
  · intro h
    have h' : MAX_MESSAGE_SIZE * 2 < buffer.length + chunk.length := by
      simpa using h
    simp [processChunk, h']
  · intro h
    have h' : ¬ MAX_MESSAGE_SIZE * 2 < buffer.length + chunk.length := by
      simp only [List.length_append] at h
      omega
    refine ⟨(splitLines (buffer ++ chunk)).1, (splitLines (buffer ++ chunk)).2,
      ?_, splitLines_join _, splitLines_rest_no_newline _⟩
    simp [processChunk, h']

/-- Witness for `c7_overflow_policy` at a concrete small chunk. -/
theorem c7_overflow_policy_witness :
    ∃ ls rest, processChunk [] [123, 125, 10] = (ls, rest, false) ∧
      joinLines ls rest = [123, 125, 10] ∧ 10 ∉ rest :=
  (c7_overflow_policy [] [123, 125, 10]).2 (by simp [MAX_MESSAGE_SIZE])

/-! ## C8: the persisted message shape versus the save endpoint -/

/-- C8.  The relay's `ChatHistoryManager.save_message` posts exactly
`{sender, recipient, message, type}`, but `/api/messages/save` of
`unified_server.py` requires `ciphertext`, `nonce` and `mac` as well: the
first missing-field check fires on `ciphertext` and the endpoint answers
`400`, never the `201` success — every `group`/`dm` persistence attempt is
rejected. -/
theorem c8_save_shape_rejected :
    firstMissingSaveField saveMessageBodyKeys = some "ciphertext" ∧
    saveEndpointStatus saveMessageBodyKeys = 400 := by
  constructor
  · rfl
  · rfl

/-! ## C9: the JWT secret configuration -/

/-- C9.  With an empty environment the relay (`dm_server.py` line 15)
starts anyway with the substituted default secret `jwt-dev-secret`
instead of failing closed, while the token issuer (`unified_server.py`
lines 12-14) refuses to start; moreover the two read different
environment variables: setting only the issuer's `JWT_SECRET` leaves the
relay on its default, and setting only the relay's `JWT_SECRET_KEY`
still makes the issuer refuse to start. -/
theorem c9_secret_default_and_mismatch :
    dmServerJwtSecret [] = "jwt-dev-secret" ∧
    unifiedServerJwtSecret [] = none ∧
    dmServerJwtSecret [("JWT_SECRET", "issuer-secret")] = "jwt-dev-secret" ∧
    unifiedServerJwtSecret [("JWT_SECRET_KEY", "relay-secret")] = none := by
  refine ⟨rfl, rfl, ?_, ?_⟩ <;> rfl

/-! ## Lemmas about the file-relay loop -/

/-- When every `recv` yields at least one byte, the sender's stream is
long enough and there are enough `recv` opportunities, the relay loop
succeeds: it forwards exactly the next `expected - bytesRelayed` bytes of
the stream (in order), leaves the FRAME-mode buffer untouched, and leaves
the remainder of the stream unread on the socket. -/
theorem relayRecvLoop_spec (sizes : List Nat) :
    ∀ (expected bytesRelayed : Nat) (buffer stream : List Nat),
      (∀ a ∈ sizes, 1 ≤ a) →
      expected - bytesRelayed ≤ stream.length →
      expected - bytesRelayed ≤ sizes.length →
      ∃ parts,
        relayRecvLoop expected bytesRelayed buffer stream sizes =
          (parts, true, buffer, stream.drop (expected - bytesRelayed)) ∧
        parts.flatten = stream.take (expected - bytesRelayed) := by
  induction sizes with
  | nil =>
    intro expected bytesRelayed buffer stream _ _ hsz
    have h0 : expected - bytesRelayed = 0 := Nat.le_zero.mp hsz
    have hnlt : ¬ bytesRelayed < expected := by omega
    refine ⟨[], ?_, by simp [h0]⟩
    simp [relayRecvLoop, hnlt, h0]
  | cons a rest ih =>
    intro expected bytesRelayed buffer stream hpos hstream hsz
    by_cases hlt : bytesRelayed < expected
    · have hrest : ∀ x ∈ rest, 1 ≤ x := fun x hx => hpos x (List.mem_cons_of_mem a hx)
      -- abbreviations matching the definition
      set need := expected - bytesRelayed with hneed
      set k := min a (min BUFFER_SIZE need) with hk
      have hk1 : 1 ≤ k := by
        have ha : 1 ≤ a := hpos a (List.mem_cons_self a rest)
        have hb : 1 ≤ min BUFFER_SIZE need := by
          simp only [BUFFER_SIZE]
          omega
        omega
      have hkneed : k ≤ need := by
        have hm : min BUFFER_SIZE need ≤ need := Nat.min_le_right _ _
        omega
      have hkstream : k ≤ stream.length := le_trans hkneed hstream
      have hchunklen : (stream.take k).length = k := by
        simp [List.length_take, Nat.min_eq_left hkstream]
      have hchunkne : ¬ stream.take k = [] := by
        intro hnil
        rw [hnil] at hchunklen
        simp at hchunklen
        omega
      have hdata : (stream.take k).take need = stream.take k :=
        List.take_of_length_le (by rw [hchunklen]; exact hkneed)
      have htail : (stream.take k).drop need = [] :=
        List.drop_eq_nil_of_le (by rw [hchunklen]; exact hkneed)
      -- the recursive call
      have hstream' : expected - (bytesRelayed + k) ≤ (stream.drop k).length := by
        simp only [List.length_drop]
        omega
      have hsz' : expected - (bytesRelayed + k) ≤ rest.length := by
        simp only [List.length_cons] at hsz
        omega
      obtain ⟨parts, heq, hjoin⟩ :=
        ih expected (bytesRelayed + k) buffer (stream.drop k) hrest hstream' hsz'
      refine ⟨stream.take k :: parts, ?_, ?_⟩
      · show relayRecvLoop expected bytesRelayed buffer stream (a :: rest) = _
        simp only [relayRecvLoop, if_pos hlt, ← hneed, ← hk, if_neg hchunkne,
          hdata, htail, hchunklen, List.nil_append, heq]
        have hdrop : (stream.drop k).drop (expected - (bytesRelayed + k)) =
            stream.drop need := by
          rw [List.drop_drop]
          congr 1
          omega
        rw [hdrop]
      · simp only [List.flatten_cons]
        rw [hjoin]
        have hsplit : need = k + (expected - (bytesRelayed + k)) := by omega
        rw [hsplit, List.take_add]
    · have h0 : expected - bytesRelayed = 0 := by omega
      refine ⟨[], ?_, by simp [h0]⟩
      simp [relayRecvLoop, hlt, h0]

/-- The whole streaming step of lines 277-328 (buffered bytes first, then
the `recv` loop): exactly `expected` bytes — the first `expected` bytes of
the buffered-plus-incoming stream — are forwarded; everything after them
is still available for FRAME-mode parsing (partly in the returned buffer,
partly unread on the socket). -/
theorem streamFile_spec (expected : Nat) (buffer stream : List Nat)
    (sizes : List Nat)
    (hpos : ∀ a ∈ sizes, 1 ≤ a)
    (hlen : expected ≤ buffer.length + stream.length)
    (hsz : expected ≤ sizes.length) :
    ∃ parts,
      streamFile expected buffer stream sizes =
        (parts, true, buffer.drop expected,
          stream.drop (expected - buffer.length)) ∧
      parts.flatten = (buffer ++ stream).take expected ∧
      parts.flatten.length = expected ∧
      buffer.drop expected ++ stream.drop (expected - buffer.length) =
        (buffer ++ stream).drop expected := by
  have hbl : (buffer.take expected).length = min expected buffer.length := by
    simp [List.length_take]
  have hstream' : expected - min expected buffer.length ≤ stream.length := by
    omega
  have hsz' : expected - min expected buffer.length ≤ sizes.length := by
    omega
  obtain ⟨parts, heq, hjoin⟩ :=
    relayRecvLoop_spec sizes expected (buffer.take expected).length
      (buffer.drop (buffer.take expected).length) stream hpos
      (by rw [hbl]; exact hstream') (by rw [hbl]; exact hsz')
  have h1 : buffer.drop (buffer.take expected).length = buffer.drop expected := by
    rw [hbl]
    rcases Nat.le_total expected buffer.length with h | h
    · rw [Nat.min_eq_left h]
    · rw [Nat.min_eq_right h, List.drop_eq_nil_of_le (Nat.le_refl _),
        List.drop_eq_nil_of_le h]
  have h2 : expected - (buffer.take expected).length = expected - buffer.length := by
    rw [hbl]
    omega
  have hflat : (buffer.take expected :: parts).flatten =
      (buffer ++ stream).take expected := by
    simp only [List.flatten_cons]
    rw [hjoin, h2, List.take_append_eq_append_take]
  rw [h1, h2] at heq
  refine ⟨buffer.take expected :: parts, ?_, hflat, ?_, ?_⟩
  · show streamFile expected buffer stream sizes = _
    simp only [streamFile, h1, heq]
  · rw [hflat]
    simp only [List.length_take, List.length_append]
    omega
  · rw [List.drop_append_eq_append_drop]

/-! ## Lemmas about the `file_transfer_start` branch -/

/-- A validated `file_transfer_start` (receiver online, declared size a
representable positive integer) with a live enough sender stream: the
events are the forwarded metadata, the 4-byte length prefix, and the
payload parts; the transfer state is installed; exactly the first `n`
bytes of the buffered-plus-incoming sender stream are forwarded. -/
theorem processFileStart_success (clients : List String) (username : String)
    (st : HState) (f : Frame) (buffer stream : List Nat) (sizes : List Nat)
    (r : String) (n : Nat)
    (hr : f.receiver = some r) (hmem : r ∈ clients)
    (hn : expectedOf f.fileSize = (n : Int)) (hpos : 0 < n) (hlt : n < 2 ^ 32)
    (hszpos : ∀ a ∈ sizes, 1 ≤ a) (hsz : n ≤ sizes.length)
    (hlen : n ≤ buffer.length + stream.length) :
    ∃ parts : List (List Nat),
      processFileStart clients username st f buffer stream sizes =
        ({ fileMetadata := some f, receiverSocket := some r },
          buffer.drop n,
          Event.sendFrame r (OutMsg.fwdStart f) :: Event.sendRaw r (be32 n) ::
            (parts.filter (fun d => d ≠ [])).map (Event.sendRaw r),
          stream.drop (n - buffer.length)) ∧
      parts.flatten = (buffer ++ stream).take n ∧
      parts.flatten.length = n ∧
      buffer.drop n ++ stream.drop (n - buffer.length) =
        (buffer ++ stream).drop n := by
  have hmemb : ¬ optMem (some r) clients = false := by
    simp [optMem, hmem]
  have hnle : ¬ expectedOf f.fileSize ≤ 0 := by
    rw [hn]
    omega
  have hnlt : ¬ (2 : Int) ^ 32 ≤ expectedOf f.fileSize := by
    rw [hn]
    have h32 : ((2 : Int) ^ 32) = ((2 ^ 32 : Nat) : Int) := by norm_cast
    rw [h32]
    omega
  have htn : (expectedOf f.fileSize).toNat = n := by rw [hn]; rfl
  obtain ⟨parts, heq, hflat, hflatlen, hdrop⟩ :=
    streamFile_spec n buffer stream sizes hszpos hlen hsz
  refine ⟨parts, ?_, hflat, hflatlen, hdrop⟩
  simp only [processFileStart, hr, Option.getD_some, if_neg hmemb,
    if_neg hnle, if_neg hnlt, htn, heq, if_true]

/-- A `file_transfer_start` whose declared size coerces to `0` or below
(missing, non-numeric, zero or negative `file_size`): the metadata has
already been forwarded to the receiver when the `Invalid file size` error
goes back to the sender; no length prefix and no payload byte is written,
and the installed transfer state is kept. -/
theorem processFileStart_invalid (clients : List String) (username : String)
    (st : HState) (f : Frame) (buffer stream : List Nat) (sizes : List Nat)
    (r : String)
    (hr : f.receiver = some r) (hmem : r ∈ clients)
    (hle : expectedOf f.fileSize ≤ 0) :
    processFileStart clients username st f buffer stream sizes =
      ({ fileMetadata := some f, receiverSocket := some r }, buffer,
        [Event.sendFrame r (OutMsg.fwdStart f),
         Event.sendFrame username (OutMsg.errorMsg "Invalid file size")],
        stream) := by
  have hmemb : ¬ optMem (some r) clients = false := by
    simp [optMem, hmem]
  simp only [processFileStart, hr, Option.getD_some, if_neg hmemb, if_pos hle]

/-! ## C1: exact byte accounting of a file relay -/

/-- C1.  For a transfer whose `file_transfer_start` declares
`file_size = n` (receiver online, `0 < n < 2^32`, the sender's stream
supplying at least `n` bytes), the relay forwards to the receiver exactly
the first `n` bytes of the sender's payload stream (buffered bytes first,
then `recv`ed bytes) — no fewer, no more — and every byte after the
payload, even control frames concatenated directly behind it, is kept for
FRAME-mode parsing: the final FRAME-mode buffer followed by the unread
stream is exactly the sender's stream with the payload removed. -/
theorem c1_relay_exact_size (clients : List String) (username : String)
    (st : HState) (f : Frame) (buffer stream : List Nat) (sizes : List Nat)
    (r : String) (n : Nat)
    (hr : f.receiver = some r) (hmem : r ∈ clients)
    (hn : expectedOf f.fileSize = (n : Int)) (hpos : 0 < n) (hlt : n < 2 ^ 32)
    (hszpos : ∀ a ∈ sizes, 1 ≤ a) (hsz : n ≤ sizes.length)
    (hlen : n ≤ buffer.length + stream.length) :
    ∃ (parts : List (List Nat)) (buf1 rest : List Nat),
      processFileStart clients username st f buffer stream sizes =
        ({ fileMetadata := some f, receiverSocket := some r }, buf1,
          Event.sendFrame r (OutMsg.fwdStart f) :: Event.sendRaw r (be32 n) ::
            (parts.filter (fun d => d ≠ [])).map (Event.sendRaw r),
          rest) ∧
      parts.flatten = (buffer ++ stream).take n ∧
      parts.flatten.length = n ∧
      buf1 ++ rest = (buffer ++ stream).drop n := by
  obtain ⟨parts, heq, hflat, hflatlen, hdrop⟩ :=
    processFileStart_success clients username st f buffer stream sizes r n
      hr hmem hn hpos hlt hszpos hsz hlen
  exact ⟨parts, buffer.drop n, stream.drop (n - buffer.length),
    heq, hflat, hflatlen, hdrop⟩

/-- Witness for `c1_relay_exact_size`: Alice sends a 5-byte file `HELLO`
to Bob with one extra byte already following it on the stream. -/
theorem c1_relay_exact_size_witness :
    ∃ (parts : List (List Nat)) (buf1 rest : List Nat),
      processFileStart ["alice", "bob"] "alice" {}
          { type := some "file_transfer_start", receiver := some "bob",
            fileName := some "x", fileSize := some (JVal.jint 5),
            fileId := some "F1" }
          [] [72, 69, 76, 76, 79, 88] [6, 1, 1, 1, 1] =
        ({ fileMetadata := some
            { type := some "file_transfer_start", receiver := some "bob",
              fileName := some "x", fileSize := some (JVal.jint 5),
              fileId := some "F1" },
           receiverSocket := some "bob" }, buf1,
          Event.sendFrame "bob" (OutMsg.fwdStart
            { type := some "file_transfer_start", receiver := some "bob",
              fileName := some "x", fileSize := some (JVal.jint 5),
              fileId := some "F1" }) ::
          Event.sendRaw "bob" (be32 5) ::
            (parts.filter (fun d => d ≠ [])).map (Event.sendRaw "bob"),
          rest) ∧
      parts.flatten = ([] ++ [72, 69, 76, 76, 79, 88]).take 5 ∧
      parts.flatten.length = 5 ∧
      buf1 ++ rest = ([] ++ [72, 69, 76, 76, 79, 88]).drop 5 :=
  c1_relay_exact_size ["alice", "bob"] "alice" {}
    { type := some "file_transfer_start", receiver := some "bob",
      fileName := some "x", fileSize := some (JVal.jint 5),
      fileId := some "F1" }
    [] [72, 69, 76, 76, 79, 88] [6, 1, 1, 1, 1] "bob" 5
    rfl (by decide) (by decide) (by decide) (by decide)
    (by decide) (by decide) (by decide)

/-! ## C3: absence of a transfer-conflict check -/

/-- First `file_transfer_start` of the C3 scenario (Alice to Bob, 5
bytes, id `F1`). -/
def c3Start1 : Frame :=
  { type := some "file_transfer_start", receiver := some "bob",
    fileName := some "a.txt", fileSize := some (JVal.jint 5),
    fileId := some "F1" }

/-- Second `file_transfer_start`, issued while the context of `F1` is
still installed (its `file_transfer_end` not yet processed). -/
def c3Start2 : Frame :=
  { type := some "file_transfer_start", receiver := some "bob",
    fileName := some "b.txt", fileSize := some (JVal.jint 5),
    fileId := some "F2" }

/-- Alice's handler processes the first start (payload fully streamed,
end frame not yet seen). -/
def c3Run1 : HState × List Nat × List Event × List Nat :=
  processFrame ["alice", "bob"] (fun _ => true) "alice" {} c3Start1
    [] [1, 2, 3, 4, 5] [5]

/-- Alice's handler then processes a second start while the `F1` context
is still active. -/
def c3Run2 : HState × List Nat × List Event × List Nat :=
  processFrame ["alice", "bob"] (fun _ => true) "alice" c3Run1.1 c3Start2
    c3Run1.2.1 [6, 7, 8, 9, 10] [5]

/-- C3, counterexample.  After the first transfer's payload the context of
`F1` still references Alice as sender and Bob as receiver, yet the second
`file_transfer_start` naming the same pair draws no `error` frame and
simply installs fresh transfer state for `F2` — refuting "the relay
replies to S with an `error` frame and creates no new transfer state". -/
theorem c3_second_start_not_rejected :
    c3Run1.1.fileMetadata = some c3Start1 ∧
    c3Run2.2.2.1.all (fun e => match e with
      | Event.sendFrame _ (OutMsg.errorMsg _) => false
      | _ => true) = true ∧
    c3Run2.1 = { fileMetadata := some c3Start2, receiverSocket := some "bob" } := by
  decide

/-- C3, amended.  The relay performs no transfer-conflict check at all: a
`file_transfer_start` processed while the handler still holds an active
TransferContext (for any file id `g`) is accepted like any other — the
metadata is forwarded, no `error` frame of any kind is produced, and the
new context simply overwrites the old one. -/
theorem c3_no_conflict_check (clients : List String) (username : String)
    (st : HState) (g f : Frame) (buffer stream : List Nat) (sizes : List Nat)
    (r : String) (n : Nat)
    (hactive : st.fileMetadata = some g)
    (hr : f.receiver = some r) (hmem : r ∈ clients)
    (hn : expectedOf f.fileSize = (n : Int)) (hpos : 0 < n) (hlt : n < 2 ^ 32)
    (hszpos : ∀ a ∈ sizes, 1 ≤ a) (hsz : n ≤ sizes.length)
    (hlen : n ≤ buffer.length + stream.length) :
    ∃ (events : List Event) (buf1 rest : List Nat),
      processFileStart clients username st f buffer stream sizes =
        ({ fileMetadata := some f, receiverSocket := some r }, buf1, events, rest) ∧
      ∀ d m, Event.sendFrame d (OutMsg.errorMsg m) ∉ events := by
  obtain ⟨parts, heq, -, -, -⟩ :=
    processFileStart_success clients username st f buffer stream sizes r n
      hr hmem hn hpos hlt hszpos hsz hlen
  refine ⟨_, _, _, heq, ?_⟩
  intro d m hmem'
  simp only [List.mem_cons, List.mem_map] at hmem'
  rcases hmem' with h | h | ⟨x, -, hx⟩
  · injection h with h1 h2
    exact OutMsg.noConfusion h2
  · exact Event.noConfusion h
  · exact Event.noConfusion hx

/-- Witness for `c3_no_conflict_check`: the `F1` context is active when
the `F2` start arrives. -/
theorem c3_no_conflict_check_witness :
    ∃ (events : List Event) (buf1 rest : List Nat),
      processFileStart ["alice", "bob"] "alice"
          { fileMetadata := some c3Start1, receiverSocket := some "bob" }
          c3Start2 [] [6, 7, 8, 9, 10] [5, 1, 1, 1, 1] =
        ({ fileMetadata := some c3Start2, receiverSocket := some "bob" },
          buf1, events, rest) ∧
      ∀ d m, Event.sendFrame d (OutMsg.errorMsg m) ∉ events :=
  c3_no_conflict_check ["alice", "bob"] "alice"
    { fileMetadata := some c3Start1, receiverSocket := some "bob" }
    c3Start1 c3Start2 [] [6, 7, 8, 9, 10] [5, 1, 1, 1, 1] "bob" 5
    rfl rfl (by decide) (by decide) (by decide) (by decide)
    (by decide) (by decide) (by decide)

/-! ## C6: a declared file size of zero -/

/-- The size-0 `file_transfer_start` of the C6 scenario. -/
def c6Start : Frame :=
  { type := some "file_transfer_start", receiver := some "bob",
    fileName := some "x", fileSize := some (JVal.jint 0),
    fileId := some "F0" }

/-- C6, counterexample.  A `file_transfer_start` declaring `file_size = 0`
draws an `Invalid file size` `error` frame to the sender — the transfer IS
treated as an error, refuting "the transfer is not treated as an error". -/
theorem c6_zero_size_gets_error :
    Event.sendFrame "alice" (OutMsg.errorMsg "Invalid file size") ∈
      (processFrame ["alice", "bob"] (fun _ => true) "alice" {} c6Start
        [] [] []).2.2.1 := by
  decide

/-- C6, amended.  A `file_transfer_start` with `file_size = 0` relays zero
payload bytes, but is rejected: after the metadata has already been
forwarded to the receiver, the sender receives an `Invalid file size`
`error` frame (no length prefix, no payload byte).  The installed transfer
state is kept, so the next frame — typically the matching
`file_transfer_end` — is still processed as an ordinary control frame and
forwarded to the receiver. -/
theorem c6_zero_size_rejected (clients : List String) (username : String)
    (st : HState) (f e : Frame) (buffer stream : List Nat) (sizes : List Nat)
    (r : String)
    (hr : f.receiver = some r) (hmem : r ∈ clients)
    (hzero : f.fileSize = some (JVal.jint 0))
    (hid : e.fileId = f.fileId) :
    processFileStart clients username st f buffer stream sizes =
      ({ fileMetadata := some f, receiverSocket := some r }, buffer,
        [Event.sendFrame r (OutMsg.fwdStart f),
         Event.sendFrame username (OutMsg.errorMsg "Invalid file size")],
        stream) ∧
    processFileEnd { fileMetadata := some f, receiverSocket := some r } e =
      ({ fileMetadata := none, receiverSocket := none },
        [Event.sendFrame r (OutMsg.fwdEnd e)]) := by
  constructor
  · exact processFileStart_invalid clients username st f buffer stream sizes r
      hr hmem (by rw [hzero]; decide)
  · simp [processFileEnd, hid]

/-- Witness for `c6_zero_size_rejected` at the concrete C6 scenario. -/
theorem c6_zero_size_rejected_witness :
    processFileStart ["alice", "bob"] "alice" {} c6Start [] [] [] =
      ({ fileMetadata := some c6Start, receiverSocket := some "bob" }, [],
        [Event.sendFrame "bob" (OutMsg.fwdStart c6Start),
         Event.sendFrame "alice" (OutMsg.errorMsg "Invalid file size")],
        []) ∧
    processFileEnd { fileMetadata := some c6Start, receiverSocket := some "bob" }
        { type := some "file_transfer_end", fileId := some "F0",
          status := some "success" } =
      ({ fileMetadata := none, receiverSocket := none },
        [Event.sendFrame "bob" (OutMsg.fwdEnd
          { type := some "file_transfer_end", fileId := some "F0",
            status := some "success" })]) :=
  c6_zero_size_rejected ["alice", "bob"] "alice" {} c6Start
    { type := some "file_transfer_end", fileId := some "F0",
      status := some "success" }
    [] [] [] "bob" rfl (by decide) rfl rfl

/-! ## C10: which declared file sizes are rejected, and when -/

/-- The fractional-size `file_transfer_start` of the C10 counterexample
(`file_size = 3.5`). -/
def c10Start : Frame :=
  { type := some "file_transfer_start", receiver := some "bob",
    fileName := some "y", fileSize := some (JVal.jnum 35 1),
    fileId := some "F3" }

/-- C10, counterexample.  A `file_transfer_start` whose `file_size` is
`3.5` — a number that is not a positive integer — is NOT rejected: Python
`int(3.5)` truncates to `3`, no `error` frame is sent, and 3 payload bytes
are relayed to the receiver, refuting the claim's trigger condition. -/
theorem c10_fractional_size_not_rejected :
    (processFrame ["alice", "bob"] (fun _ => true) "alice" {} c10Start
        [] [65, 66, 67] [3]).2.2.1.all (fun e => match e with
      | Event.sendFrame _ (OutMsg.errorMsg _) => false
      | _ => true) = true ∧
    Event.sendRaw "bob" [65, 66, 67] ∈
      (processFrame ["alice", "bob"] (fun _ => true) "alice" {} c10Start
        [] [65, 66, 67] [3]).2.2.1 := by
  decide

/-- C10, amended.  A `file_transfer_start` whose `file_size` is missing
(Python `int(None)` raises, falling back to `expected = 0`) or is an
integer `≤ 0` is rejected with `Invalid file size` — but only after the
`file_transfer_start` frame has already been forwarded to the receiver:
the error to the sender comes second, no length prefix and no payload
byte is relayed, so the receiver still observes a start frame announcing
a transfer that never takes place.  Sizes that are merely "not a
positive integer" are not in general rejected: `int()` truncates a
fractional size toward zero and the transfer proceeds (the
counterexample above relays 3 bytes for `file_size = 3.5`). -/
theorem c10_invalid_size_error_after_forward (clients : List String)
    (username : String) (st : HState) (f : Frame)
    (buffer stream : List Nat) (sizes : List Nat) (r : String)
    (hr : f.receiver = some r) (hmem : r ∈ clients)
    (hsz : f.fileSize = none ∨
      ∃ k : Int, k ≤ 0 ∧ f.fileSize = some (JVal.jint k)) :
    processFileStart clients username st f buffer stream sizes =
      ({ fileMetadata := some f, receiverSocket := some r }, buffer,
        [Event.sendFrame r (OutMsg.fwdStart f),
         Event.sendFrame username (OutMsg.errorMsg "Invalid file size")],
        stream) := by
  have hle : expectedOf f.fileSize ≤ 0 := by
    rcases hsz with h | ⟨k, hk, h⟩
    · rw [h]
      decide
    · rw [h]
      simpa [expectedOf, pyInt] using hk
  exact processFileStart_invalid clients username st f buffer stream sizes r
    hr hmem hle

/-- Witness for `c10_invalid_size_error_after_forward` with a missing
`file_size`. -/
theorem c10_invalid_size_witness :
    processFileStart ["alice", "bob"] "alice" {}
        { type := some "file_transfer_start", receiver := some "bob",
          fileName := some "z", fileId := some "F4" }
        [] [] [] =
      ({ fileMetadata := some
          { type := some "file_transfer_start", receiver := some "bob",
            fileName := some "z", fileId := some "F4" },
         receiverSocket := some "bob" }, [],
        [Event.sendFrame "bob" (OutMsg.fwdStart
          { type := some "file_transfer_start", receiver := some "bob",
            fileName := some "z", fileId := some "F4" }),
         Event.sendFrame "alice" (OutMsg.errorMsg "Invalid file size")],
        []) :=
  c10_invalid_size_error_after_forward ["alice", "bob"] "alice" {}
    { type := some "file_transfer_start", receiver := some "bob",
      fileName := some "z", fileId := some "F4" }
    [] [] [] "bob" rfl (by decide) (Or.inl rfl)

/-! ## C2: the byte sequence Bob's socket observes in scenario S5 -/

/-- Whether an event is a write to user `u`'s socket. -/
def isToUser (u : String) : Event → Bool
  | Event.sendFrame d _ => d = u
  | Event.sendRaw d _ => d = u
  | Event.persist _ _ _ _ => false

/-- The writes to user `u`'s socket among the handler's events, in order. -/
def eventsTo (u : String) (es : List Event) : List Event :=
  es.filter (isToUser u)

/-- The S5 `file_transfer_start` (Alice to Bob, file `x`, 5 bytes, id
`F1`). -/
def s5Start : Frame :=
  { type := some "file_transfer_start", receiver := some "bob",
    fileName := some "x", fileSize := some (JVal.jint 5),
    fileId := some "F1" }

/-- The S5 `file_transfer_end`. -/
def s5End : Frame :=
  { type := some "file_transfer_end", fileId := some "F1",
    status := some "success" }

/-- The payload `HELLO` as bytes. -/
def helloBytes : List Nat := [72, 69, 76, 76, 79]

/-- Alice's handler processes the S5 start frame, streaming the payload
`HELLO` (one `recv` of 5 bytes). -/
def s5Run1 : HState × List Nat × List Event × List Nat :=
  processFrame ["alice", "bob"] (fun _ => true) "alice" {} s5Start
    [] helloBytes [5]

/-- Alice's handler then processes the S5 end frame. -/
def s5Run2 : HState × List Nat × List Event × List Nat :=
  processFrame ["alice", "bob"] (fun _ => true) "alice" s5Run1.1 s5End
    s5Run1.2.1 s5Run1.2.2.2 []

/-- Everything written to Bob's socket during S5, in order. -/
def s5BobView : List Event :=
  eventsTo "bob" (s5Run1.2.2.1 ++ s5Run2.2.2.1)

/-- C2, counterexample.  In scenario S5 Bob's socket does NOT observe
just the forwarded start frame, the 5 payload bytes and the end frame:
the relay interposes the 4-byte big-endian length prefix
`struct.pack('>I', 5) = 00 00 00 05` between the start frame and the
payload. -/
theorem c2_s5_interposed_bytes :
    s5BobView ≠
      [Event.sendFrame "bob" (OutMsg.fwdStart s5Start),
       Event.sendRaw "bob" helloBytes,
       Event.sendFrame "bob" (OutMsg.fwdEnd s5End)] := by
  decide

/-- C2, amended.  In scenario S5 Bob's socket observes exactly: the
forwarded `file_transfer_start` frame, then the 4-byte big-endian length
prefix `00 00 00 05`, then exactly the 5 payload bytes `HELLO`, then the
forwarded `file_transfer_end` frame — and nothing else. -/
theorem c2_s5_receiver_sequence :
    s5BobView =
      [Event.sendFrame "bob" (OutMsg.fwdStart s5Start),
       Event.sendRaw "bob" [0, 0, 0, 5],
       Event.sendRaw "bob" helloBytes,
       Event.sendFrame "bob" (OutMsg.fwdEnd s5End)] := by
  decide

/-! ## C4: group messages and the sender -/

/-- The events of one `group` dispatch that equal the group frame sent to
user `u` are exactly one per occurrence of `u` in the registry. -/
theorem broadcastAll_filter_self (m : OutMsg) (u : String) :
    ∀ clients : List String, u ∉ clients →
      (broadcastAll clients m).filter
        (fun e => e = Event.sendFrame u m) = [] := by
  intro clients
  induction clients with
  | nil => intro _; rfl
  | cons v rest ih =>
    intro hu
    have hv : ¬ (Event.sendFrame v m = Event.sendFrame u m) := by
      intro hvu
      injection hvu with h1 h2
      exact hu (h1 ▸ List.mem_cons_self v rest)
    have hrest : u ∉ rest := fun h => hu (List.mem_cons_of_mem v h)
    simp only [broadcastAll, List.map_cons, List.filter_cons,
      decide_eq_true_eq]
    rw [if_neg hv]
    simpa [broadcastAll] using ih hrest

/-- In a duplicate-free registry containing `u`, the broadcast of one
`group` frame reaches `u` exactly once. -/
theorem broadcastAll_filter_one (m : OutMsg) (u : String) :
    ∀ clients : List String, clients.Nodup → u ∈ clients →
      ((broadcastAll clients m).filter
        (fun e => e = Event.sendFrame u m)).length = 1 := by
  intro clients
  induction clients with
  | nil => intro _ h; cases h
  | cons v rest ih =>
    intro hnd hu
    have hnd' := List.nodup_cons.mp hnd
    by_cases hv : v = u
    · subst hv
      simp only [broadcastAll, List.map_cons, List.filter_cons,
        decide_eq_true_eq, if_pos rfl, List.length_cons]
      have h0 := broadcastAll_filter_self m v rest hnd'.1
      simp only [broadcastAll] at h0
      rw [h0]
      simp
    · have hu' : u ∈ rest := by
        rcases List.mem_cons.mp hu with h | h
        · exact absurd h.symm hv
        · exact h
      have hne : ¬ (Event.sendFrame v m = Event.sendFrame u m) := by
        intro hvu
        injection hvu with h1 h2
        exact hv h1
      simp only [broadcastAll, List.map_cons, List.filter_cons,
        decide_eq_true_eq]
      rw [if_neg hne]
      simpa [broadcastAll] using ih hnd'.2 hu'

/-- C4, counterexample.  A `group` frame from Alice is broadcast with no
`exclude_user` (line 387 of `dm_server.py`), so Alice receives a copy of
her own group frame — refuting "U does not receive a copy of their own
group frame". -/
theorem c4_sender_receives_own_group :
    Event.sendFrame "alice" (OutMsg.groupMsg "alice" "hi") ∈
      processGroup ["alice", "bob"] "alice"
        { type := some "group", message := some "hi" } := by
  decide

/-- C4, amended.  A valid `group` message from user `username` is
persisted and delivered to every live session with the sender INCLUDED:
every user of the (duplicate-free) registry — the sender among them —
receives exactly one frame `{type: "group", from: username, message}`. -/
theorem c4_group_reaches_everyone (clients : List String)
    (username msg : String) (f : Frame) (u : String)
    (hm : f.message = some msg) (hne : msg ≠ "")
    (hlen : msg.length ≤ MAX_MESSAGE_SIZE)
    (hnodup : clients.Nodup) (hu : u ∈ clients) :
    ((processGroup clients username f).filter
      (fun e => e = Event.sendFrame u (OutMsg.groupMsg username msg))).length
      = 1 := by
  have hvalid : ¬ (msg = "" ∨ MAX_MESSAGE_SIZE < msg.length) := by
    simp only [not_or, Nat.not_lt]
    exact ⟨hne, hlen⟩
  have hper : ¬ (Event.persist username "group" msg "group" =
      Event.sendFrame u (OutMsg.groupMsg username msg)) := by
    intro h
    exact Event.noConfusion h
  simp only [processGroup, hm, Option.getD_some, if_neg hvalid,
    List.filter_cons, decide_eq_true_eq]
  rw [if_neg hper]
  exact broadcastAll_filter_one _ u clients hnodup hu

/-- Witness for `c4_group_reaches_everyone`: the sender herself receives
exactly one copy. -/
theorem c4_group_reaches_everyone_witness :
    ((processGroup ["alice", "bob"] "alice"
        { type := some "group", message := some "hi" }).filter
      (fun e => e = Event.sendFrame "alice" (OutMsg.groupMsg "alice" "hi"))).length
      = 1 :=
  c4_group_reaches_everyone ["alice", "bob"] "alice" "hi"
    { type := some "group", message := some "hi" } "alice"
    rfl (by decide) (by decide) (by decide) (by decide)

/-! ## C5: direct-message delivery and error reporting -/

/-- C5.  For a `dm` frame with a non-empty in-limit message and a named
recipient `r`: when `r` is registered and the socket write succeeds, the
events are exactly the persistence post, one `dm` frame to `r` and one
confirmation to the sender; otherwise they are exactly the persistence
post and one `error` frame `User <r> not found or offline` to the sender.
In both cases no third session receives anything. -/
theorem c5_dm_delivery (clients : List String) (writeOk : String → Bool)
    (username : String) (f : Frame) (r msg : String)
    (hm : f.message = some msg) (hne : msg ≠ "")
    (hlen : msg.length ≤ MAX_MESSAGE_SIZE)
    (hr : f.toUser = some r) (hrne : r ≠ "") :
    (r ∈ clients ∧ writeOk r = true →
      processDm clients writeOk username f =
        [Event.persist username r msg "dm",
         Event.sendFrame r (OutMsg.dmMsg username msg),
         Event.sendFrame username (OutMsg.dmConfirm username r msg)]) ∧
    (¬ (r ∈ clients ∧ writeOk r = true) →
      processDm clients writeOk username f =
        [Event.persist username r msg "dm",
         Event.sendFrame username
           (OutMsg.errorMsg ("User " ++ r ++ " not found or offline"))]) := by
  have hvalid : msg ≠ "" ∧ msg.length ≤ MAX_MESSAGE_SIZE ∧
      (some r : Option String) ≠ none ∧ (some r : Option String) ≠ some "" :=
    ⟨hne, hlen, by simp, by simpa using hrne⟩
  constructor
  · intro hdeliver
    simp only [processDm, hm, hr, Option.getD_some, if_pos hvalid,
      if_pos hdeliver]
  · intro hfail
    simp only [processDm, hm, hr, Option.getD_some, if_pos hvalid,
      if_neg hfail]

/-- Witness for `c5_dm_delivery`: delivery to the online recipient Bob,
and the error path for the offline recipient Carol. -/
theorem c5_dm_delivery_witness :
    processDm ["alice", "bob"] (fun _ => true) "alice"
        { type := some "dm", toUser := some "bob", message := some "hi" } =
      [Event.persist "alice" "bob" "hi" "dm",
       Event.sendFrame "bob" (OutMsg.dmMsg "alice" "hi"),
       Event.sendFrame "alice" (OutMsg.dmConfirm "alice" "bob" "hi")] :=
  (c5_dm_delivery ["alice", "bob"] (fun _ => true) "alice"
      { type := some "dm", toUser := some "bob", message := some "hi" }
      "bob" "hi" rfl (by decide) (by decide) rfl (by decide)).1
    ⟨by decide, rfl⟩

end SajiloChat
